import Mathlib

/-!
Verification of the `PasswordRes` resource from `resources/password.go`.

The Go code is shallowly embedded: the persisted token file is modelled as
an `Option (List Char)` (`none` = the file does not exist), the random
source `crypto/rand` is modelled as an oracle `Nat → Nat` whose i-th value
is reduced modulo the bound passed to `rand.Int` (so the model can return
every value in the half-open range `[0, bound)` that `rand.Int` draws
from, and only those), and the outcome of the `os.Create`/`file.Write`
pair is modelled by a `WriteOutcome` (success, create failure, or a write
failure after `n` bytes — `os.Create` truncates, and a failed `Write` may
leave any prefix of the new content, per the documented contracts of
`os.Create` and `io.Writer`).

Go `uint16` conversions are modelled as `% 65536` on `Nat`.
-/

namespace Mgmt

/-- The constant `alphabet` from the source: 52 upper/lowercase Latin letters. -/
def alphabet : List Char := "abcdefghijklmnopqrstuvwxyzABCDEFGHIJKLMNOPQRSTUVWXYZ".toList

/-- Predicate for `unicode.IsSpace` (the characters `strings.TrimSpace` trims):
the Unicode White_Space code points. -/
def goIsSpace (c : Char) : Bool :=
  let n := c.toNat
  n == 9 || n == 10 || n == 11 || n == 12 || n == 13 || n == 32 ||
  n == 0x85 || n == 0xA0 || n == 0x1680 || (0x2000 ≤ n && n ≤ 0x200A) ||
  n == 0x2028 || n == 0x2029 || n == 0x202F || n == 0x205F || n == 0x3000

/-- Model of `strings.TrimSpace`: drop White_Space characters from both ends. -/
def trimSpace (s : List Char) : List Char :=
  ((s.dropWhile goIsSpace).reverse.dropWhile goIsSpace).reverse

/-- The configured fields of `PasswordRes` that `CheckApply` reads, plus the
in-memory `Password` cache. `Length` is a Go `uint16` (so in the real program
`Length < 65536`); theorems that need this bound take it as a hypothesis. -/
structure PasswordRes where
  Length : Nat
  Saved : Bool
  CheckRecovery : Bool
  Password : Option (List Char)
deriving DecidableEq

instance {ε α : Type} [DecidableEq ε] [DecidableEq α] : DecidableEq (Except ε α) :=
  fun a b =>
    match a, b with
    | .error x, .error y =>
      if h : x = y then .isTrue (by rw [h])
      else .isFalse (by intro hh; injection hh; exact h (by assumption))
    | .ok x, .ok y =>
      if h : x = y then .isTrue (by rw [h])
      else .isFalse (by intro hh; injection hh; exact h (by assumption))
    | .error _, .ok _ => .isFalse (by intro hh; exact Except.noConfusion hh)
    | .ok _, .error _ => .isFalse (by intro hh; exact Except.noConfusion hh)

/-- `PasswordRes.Validate` from the source: it unconditionally returns `nil`,
modelled as `none` (no validation error). -/
def PasswordRes.Validate (_obj : PasswordRes) : Option String := none

/-- `PasswordRes.check` from the source. `length := uint16(len(value))` is the
value's length reduced mod 2^16; the character loop runs for `length`
iterations, i.e. over `value.take length`, and reports the first character
not found in `alphabet`. -/
def PasswordRes.check (obj : PasswordRes) (value : List Char) : Except String Unit :=
  let length := value.length % 65536
  if !obj.Saved && length == 0 then .ok ()
  else if !obj.Saved && length != 0 then .error "Expected empty token only!"
  else if length != obj.Length then .error ("String length is not " ++ toString obj.Length)
  else
    match (value.take length).find? (fun c => !alphabet.contains c) with
    | some c => .error ("Invalid character `" ++ String.mk [c] ++ "`")
    | none => .ok ()

/-- One character-selection step of `PasswordRes.generate`:
`rand.Int(rand.Reader, big.NewInt(int64(max)))` with `max = len(alphabet)-1`
returns a uniform value in `[0, max)`; the oracle's value is reduced
`% max` so that exactly the values `0 .. max-1` are reachable. The selected
index is then looked up in `alphabet`. -/
def genChar (oracle : Nat → Nat) (i : Nat) : Char :=
  alphabet.getD (oracle i % (alphabet.length - 1)) 'a'

/-- The string built by the generation loop: `Length` selected characters. -/
def genList (n : Nat) (oracle : Nat → Nat) : List Char :=
  (List.range n).map (genChar oracle)

/-- `PasswordRes.generate` from the source: build `Length` characters, then the
two defensive checks (empty output, and `uint16(len(output)) != obj.Length`). -/
def PasswordRes.generate (obj : PasswordRes) (oracle : Nat → Nat) :
    Except String (List Char) :=
  let output := genList obj.Length oracle
  if output.isEmpty then .error "password is empty"
  else if output.length % 65536 != obj.Length then .error "password length is too short"
  else .ok output

/-- `PasswordRes.read` from the source: open the token file (error when it does
not exist), read it all, and return the content with surrounding whitespace
trimmed. The file's content is the `fs` argument. -/
def PasswordRes.read (_obj : PasswordRes) (fs : Option (List Char)) :
    Except String (List Char) :=
  match fs with
  | none => .error "file does not exist"
  | some data => .ok (trimSpace data)

/-- Outcome of the `os.Create` + `file.Write` pair inside `PasswordRes.write`:
`os.Create` can fail (old content untouched); otherwise it truncates the file
and `file.Write` either succeeds or fails after writing `n` bytes, leaving a
prefix of the new content. -/
inductive WriteOutcome where
  | success
  | createFail
  | failAt (n : Nat)
deriving DecidableEq

/-- `PasswordRes.write` from the source: create-or-truncate the token file and
write `password + "\n"`, returning the byte count written and the new file
state. -/
def PasswordRes.write (_obj : PasswordRes) (fs : Option (List Char))
    (password : List Char) (w : WriteOutcome) :
    Except String Nat × Option (List Char) :=
  match w with
  | .createFail => (.error "can't create file", fs)
  | .failAt n => (.error "can't write file", some ((password ++ ['\n']).take n))
  | .success => (.ok (password.length + 1), some (password ++ ['\n']))

/-- The outcome of one `CheckApply` call: its return value
(`result = .ok checkOK` or an error), the resource afterwards (the `Password`
cache may have been updated), the token file afterwards, whether
`obj.write` was invoked, and the log lines printed. -/
structure CAResult where
  result : Except String Bool
  res : PasswordRes
  fs : Option (List Char)
  wrote : Bool
  logs : List String
deriving DecidableEq

/-- The tail of `CheckApply` from the `obj.Password = &password` assignment on:
update the cache, and if `write` is set, write either the password
(saved mode) or an empty token. -/
def writePhase (obj : PasswordRes) (fs : Option (List Char)) (password : List Char)
    (wr : Bool) (logs : List String) (w : WriteOutcome) : CAResult :=
  let obj2 := {obj with Password := some password}
  if wr then
    let output := if obj.Saved then password else []
    let logs2 := logs ++ ["Writing password token..."]
    match obj.write fs output w with
    | (.error e, fs2) => ⟨.error ("can't write to file: " ++ e), obj2, fs2, true, logs2⟩
    | (.ok _, fs2) => ⟨.ok false, obj2, fs2, true, logs2⟩
  else ⟨.ok false, obj2, fs, false, logs⟩

/-- The `if generate { ... }` block of `CheckApply`: force `write` when a value
(or token) will need to be written out, then run the generation algorithm. -/
def applyPhase (obj : PasswordRes) (fs : Option (List Char)) (password : List Char)
    (gen wr : Bool) (logs : List String) (oracle : Nat → Nat) (w : WriteOutcome) :
    CAResult :=
  if gen then
    let wr2 := wr || obj.Saved || (!obj.Saved && !password.isEmpty)
    let logs2 := logs ++ ["Generating new password..."]
    match obj.generate oracle with
    | .error e => ⟨.error ("could not generate password: " ++ e), obj, fs, false, logs2⟩
    | .ok p => writePhase obj fs p wr2 logs2 w
  else writePhase obj fs password wr logs w

/-- The flag derivation and early returns of `CheckApply` after the read and
integrity check: fold in the refresh / not-exists / saved-empty conditions
into `generate`, the cache-disagreement condition into `write`, take the
no-op fixed point, honour the dry-run contract, then apply. -/
def decidePhase (obj : PasswordRes) (fs : Option (List Char)) (password : List Char)
    (exs refresh apply : Bool) (oracle : Nat → Nat) (w : WriteOutcome)
    (gen0 write0 : Bool) (logs : List String) : CAResult :=
  let gen := gen0 || refresh || !exs || (obj.Saved && password.isEmpty)
  let wr := write0 || (obj.Saved && (match obj.Password with
    | some p => p != password
    | none => false))
  if !refresh && exs && !gen && !wr then ⟨.ok true, obj, fs, false, logs⟩
  else if !apply then ⟨.ok false, obj, fs, false, logs⟩
  else applyPhase obj fs password gen wr logs oracle w

/-- `PasswordRes.CheckApply` from the source. `refresh` is the value of
`obj.Refresh()`; `fs` is the current token file; `oracle`/`w` model the
random source and the write outcome. A read failure on an existing file is
not modelled (reads of an existing file succeed), matching the claims'
scope. -/
def PasswordRes.CheckApply (obj : PasswordRes) (fs : Option (List Char))
    (refresh apply : Bool) (oracle : Nat → Nat) (w : WriteOutcome) : CAResult :=
  match obj.read fs with
  | .error _ => decidePhase obj fs [] false refresh apply oracle w false true []
  | .ok password =>
    match obj.check password with
    | .error e =>
      if !obj.CheckRecovery then ⟨.error ("check failed: " ++ e), obj, fs, false, []⟩
      else decidePhase obj fs password true refresh apply oracle w true true
        ["Integrity check failed"]
    | .ok _ => decidePhase obj fs password true refresh apply oracle w false false []

/-! Basic facts about the alphabet and trimming. -/

lemma alphabet_length : alphabet.length = 52 := by decide

lemma alphabet_not_space : ∀ c ∈ alphabet, goIsSpace c = false := by decide

lemma dropWhile_eq_self_of_all {p : Char → Bool} {l : List Char}
    (h : ∀ c ∈ l, p c = false) : l.dropWhile p = l := by
  cases l with
  | nil => rfl
  | cons a as =>
    rw [List.dropWhile_cons, if_neg]
    simp [h a (by simp)]

lemma trimSpace_append_newline {v : List Char}
    (hv : ∀ c ∈ v, goIsSpace c = false) : trimSpace (v ++ ['\n']) = v := by
  cases v with
  | nil => rfl
  | cons a as =>
    unfold trimSpace
    rw [List.cons_append, List.dropWhile_cons, if_neg (by simp [hv a (by simp)])]
    rw [show ((a :: (as ++ ['\n'])).reverse = '\n' :: (a :: as).reverse) by
      simp [List.reverse_append]]
    rw [List.dropWhile_cons, if_pos (by decide)]
    rw [dropWhile_eq_self_of_all (fun c hc => hv c (by
      rw [List.mem_reverse] at hc; exact hc))]
    exact List.reverse_reverse _

/-! Facts about the generation algorithm. -/

lemma genChar_lt (oracle : Nat → Nat) (i : Nat) :
    oracle i % (alphabet.length - 1) < 51 := by
  rw [alphabet_length]
  exact Nat.mod_lt _ (by decide)

lemma genChar_mem (oracle : Nat → Nat) (i : Nat) : genChar oracle i ∈ alphabet := by
  have hall : ((List.range 51).all fun k => decide (alphabet.getD k 'a' ∈ alphabet)) = true := by
    decide
  have h := genChar_lt oracle i
  unfold genChar
  exact of_decide_eq_true
    (List.all_eq_true.mp hall _ (List.mem_range.mpr h))

lemma genChar_ne_Z (oracle : Nat → Nat) (i : Nat) : genChar oracle i ≠ 'Z' := by
  have hall : ((List.range 51).all fun k => decide (alphabet.getD k 'a' ≠ 'Z')) = true := by
    decide
  have h := genChar_lt oracle i
  unfold genChar
  exact of_decide_eq_true
    (List.all_eq_true.mp hall _ (List.mem_range.mpr h))

lemma genList_length (n : Nat) (oracle : Nat → Nat) : (genList n oracle).length = n := by
  simp [genList]

lemma genList_mem {n : Nat} {oracle : Nat → Nat} :
    ∀ c ∈ genList n oracle, c ∈ alphabet := by
  intro c hc
  obtain ⟨i, _, rfl⟩ := List.mem_map.mp hc
  exact genChar_mem oracle i

lemma generate_ok (obj : PasswordRes) (oracle : Nat → Nat)
    (h0 : 0 < obj.Length) (hL : obj.Length < 65536) :
    obj.generate oracle = .ok (genList obj.Length oracle) := by
  unfold PasswordRes.generate
  rw [if_neg, if_neg]
  · rw [genList_length, Nat.mod_eq_of_lt hL]
    simp
  · rw [List.isEmpty_iff]
    intro h
    have := genList_length obj.Length oracle
    rw [h] at this
    simp at this
    omega

/-! Facts about the check predicate. -/

lemma contains_of_mem {c : Char} (h : c ∈ alphabet) : alphabet.contains c = true := by
  exact List.elem_iff.mpr h

lemma check_nil_token {obj : PasswordRes} (hS : obj.Saved = false) :
    obj.check [] = .ok () := by
  simp [PasswordRes.check, hS]

lemma check_all_alphabet {obj : PasswordRes} {value : List Char}
    (hS : obj.Saved = true) (hlen : value.length = obj.Length)
    (hL : obj.Length < 65536) (hmem : ∀ c ∈ value, c ∈ alphabet) :
    obj.check value = .ok () := by
  unfold PasswordRes.check
  have hmod : value.length % 65536 = value.length := Nat.mod_eq_of_lt (by omega)
  rw [hmod, hS]
  simp only [Bool.not_true, Bool.false_and, Bool.false_eq_true, if_false]
  rw [if_neg (by simp [hlen]), hlen, ← hlen, List.take_length]
  rw [List.find?_eq_none.mpr (fun c hc => by
    simp [contains_of_mem (hmem c hc), hmem c hc])]

lemma check_genList {obj : PasswordRes} (oracle : Nat → Nat)
    (hS : obj.Saved = true) (hL : obj.Length < 65536) :
    obj.check (genList obj.Length oracle) = .ok () :=
  check_all_alphabet hS (genList_length _ _) hL genList_mem

/-! The no-op fixed point of CheckApply. -/

lemma checkApply_noop {obj : PasswordRes} {data : List Char}
    (oracle : Nat → Nat) (w : WriteOutcome)
    (hcheck : obj.check (trimSpace data) = .ok ())
    (hcache : obj.Saved = true → obj.Password = none ∨ obj.Password = some (trimSpace data))
    (hne : obj.Saved = true → trimSpace data ≠ []) :
    obj.CheckApply (some data) false true oracle w = ⟨.ok true, obj, some data, false, []⟩ := by
  have hgen : (obj.Saved && (trimSpace data).isEmpty) = false := by
    cases hS : obj.Saved with
    | false => rfl
    | true => simp [List.isEmpty_iff, hne hS]
  have hwr : (obj.Saved && (match obj.Password with
      | some p => p != trimSpace data
      | none => false)) = false := by
    cases hS : obj.Saved with
    | false => rfl
    | true =>
      rcases hcache hS with h | h <;> simp [h]
  unfold PasswordRes.CheckApply PasswordRes.read
  simp only [hcheck]
  simp [decidePhase, hgen, hwr]

/-- C10: `Validate` returns success for every `PasswordRes` configuration: no
combination of `Length` (including 0), `Saved`, and `CheckRecovery` is ever
rejected at validation time. -/
theorem c10_validate_accepts_all (obj : PasswordRes) : obj.Validate = none := rfl

/-- C3: for every configured target length L > 0, whenever the generation
algorithm returns successfully, its output has exactly L characters and every
character of the output belongs to the accepted character set. -/
theorem c3_generate_exact_length (obj : PasswordRes) (oracle : Nat → Nat)
    (out : List Char) (h0 : 0 < obj.Length)
    (hok : obj.generate oracle = .ok out) :
    out.length = obj.Length ∧ ∀ c ∈ out, c ∈ alphabet := by
  simp only [PasswordRes.generate] at hok
  split at hok
  · exact absurd hok (by simp)
  · split at hok
    · exact absurd hok (by simp)
    · injection hok with hout
      subst hout
      exact ⟨genList_length _ _, genList_mem⟩

/-- Witness for C3 at Length = 3 with the all-zeros oracle. -/
theorem c3_witness :
    (['a', 'a', 'a'] : List Char).length = (⟨3, false, false, none⟩ : PasswordRes).Length ∧
    ∀ c ∈ (['a', 'a', 'a'] : List Char), c ∈ alphabet :=
  c3_generate_exact_length ⟨3, false, false, none⟩ (fun _ => 0) ['a', 'a', 'a']
    (by decide) (by rfl)

/-- C4 (code bug): the claim says every one of the 52 letters of the alphabet
is a possible result of the character-selection step, but
`rand.Int(rand.Reader, big.NewInt(int64(max)))` with `max = len(alphabet)-1`
draws from the half-open range `[0, max)`, so index 51 — the letter `Z` —
can never be selected, no matter what the random source returns. -/
theorem c4_Z_unreachable :
    'Z' ∈ alphabet ∧ ∀ (oracle : Nat → Nat) (i : Nat), genChar oracle i ≠ 'Z' :=
  ⟨by decide, genChar_ne_Z⟩

/-- C7: writing a value composed of accepted characters and then reading it
back yields exactly that value (the trailing newline appended on write is
trimmed on read); the empty token-only value is the `v = []` instance. -/
theorem c7_round_trip (obj : PasswordRes) (fs : Option (List Char)) (v : List Char)
    (hv : ∀ c ∈ v, c ∈ alphabet) :
    obj.read (obj.write fs v .success).2 = .ok v := by
  have ht := trimSpace_append_newline (v := v) (fun c hc => alphabet_not_space c (hv c hc))
  simp [PasswordRes.write, PasswordRes.read, ht]

/-- Witness for C7 at v = "ab" (and the hypothesis checked at that input). -/
theorem c7_witness :
    PasswordRes.read ⟨2, true, false, none⟩
      (PasswordRes.write ⟨2, true, false, none⟩ none ['a', 'b'] .success).2 =
      .ok ['a', 'b'] :=
  c7_round_trip ⟨2, true, false, none⟩ none ['a', 'b'] (by decide)

/-- C9: with Length = 0 the generation algorithm always returns an error (the
zero-iteration loop produces the empty string and the empty-password safety
check fires), and `CheckApply(apply=true)` on a missing token therefore fails
without creating the token. -/
theorem c9_zero_length (obj : PasswordRes) (hL : obj.Length = 0) :
    (∀ oracle : Nat → Nat, obj.generate oracle = .error "password is empty") ∧
    ∀ (refresh : Bool) (oracle : Nat → Nat) (w : WriteOutcome),
      obj.CheckApply none refresh true oracle w =
        ⟨.error "could not generate password: password is empty", obj, none, false,
          ["Generating new password..."]⟩ := by
  have hgen : ∀ oracle : Nat → Nat, obj.generate oracle = .error "password is empty" := by
    intro oracle
    simp [PasswordRes.generate, genList, hL]
  refine ⟨hgen, ?_⟩
  intro refresh oracle w
  unfold PasswordRes.CheckApply PasswordRes.read
  simp [decidePhase, applyPhase, hgen oracle]

/-- Witness for C9 at the token-only zero-length resource. -/
theorem c9_witness :
    PasswordRes.generate ⟨0, false, false, none⟩ (fun _ => 0) = .error "password is empty" ∧
    PasswordRes.CheckApply ⟨0, false, false, none⟩ none false true (fun _ => 0) .success =
      ⟨.error "could not generate password: password is empty", ⟨0, false, false, none⟩,
        none, false, ["Generating new password..."]⟩ :=
  ⟨(c9_zero_length ⟨0, false, false, none⟩ rfl).1 (fun _ => 0),
    (c9_zero_length ⟨0, false, false, none⟩ rfl).2 false (fun _ => 0) .success⟩

/-- C1 (amended): a resource whose token file exists, passes the check
predicate, has no refresh pending, whose saved-mode cache agrees with the
on-disk value, and — the amendment — whose stored value is non-empty in saved
mode, is a fixed point: `CheckApply(apply=true)` returns `checkOK=true` with
no storage write, and a second call does the same on the unchanged state. -/
theorem c1_converged_idempotent (obj : PasswordRes) (data : List Char)
    (o1 o2 : Nat → Nat) (w1 w2 : WriteOutcome)
    (hcheck : obj.check (trimSpace data) = .ok ())
    (hcache : obj.Saved = true → obj.Password = none ∨ obj.Password = some (trimSpace data))
    (hne : obj.Saved = true → trimSpace data ≠ []) :
    obj.CheckApply (some data) false true o1 w1 = ⟨.ok true, obj, some data, false, []⟩ ∧
    PasswordRes.CheckApply (obj.CheckApply (some data) false true o1 w1).res
      ((obj.CheckApply (some data) false true o1 w1).fs) false true o2 w2 =
      ⟨.ok true, obj, some data, false, []⟩ := by
  have h1 := checkApply_noop o1 w1 hcheck hcache hne
  refine ⟨h1, ?_⟩
  rw [h1]
  exact checkApply_noop o2 w2 hcheck hcache hne

/-- Witness for C1 (amended) at a saved-mode resource of length 4 whose file
content matches its cache. -/
theorem c1_witness :
    PasswordRes.CheckApply ⟨4, true, false, some ['a', 'b', 'c', 'd']⟩
      (some ['a', 'b', 'c', 'd', '\n']) false true (fun _ => 0) .success =
      ⟨.ok true, ⟨4, true, false, some ['a', 'b', 'c', 'd']⟩,
        some ['a', 'b', 'c', 'd', '\n'], false, []⟩ ∧
    PasswordRes.CheckApply
      (PasswordRes.CheckApply ⟨4, true, false, some ['a', 'b', 'c', 'd']⟩
        (some ['a', 'b', 'c', 'd', '\n']) false true (fun _ => 0) .success).res
      ((PasswordRes.CheckApply ⟨4, true, false, some ['a', 'b', 'c', 'd']⟩
        (some ['a', 'b', 'c', 'd', '\n']) false true (fun _ => 0) .success).fs)
      false true (fun _ => 1) .createFail =
      ⟨.ok true, ⟨4, true, false, some ['a', 'b', 'c', 'd']⟩,
        some ['a', 'b', 'c', 'd', '\n'], false, []⟩ :=
  c1_converged_idempotent ⟨4, true, false, some ['a', 'b', 'c', 'd']⟩
    ['a', 'b', 'c', 'd', '\n'] (fun _ => 0) (fun _ => 1) .success .createFail
    (by rfl) (by decide) (by decide)

/-- C1 counterexample: in saved mode with Length = 0 and an existing empty
token, all of the claim's converged-state hypotheses hold (check accepts, no
refresh, cache agrees), yet `CheckApply(apply=true)` returns an error rather
than `(checkOK=true, nil)`: the saved-and-empty stored value forces a
regeneration, which fails for length 0. -/
theorem c1_counterexample :
    PasswordRes.check ⟨0, true, true, some []⟩ (trimSpace ['\n']) = .ok () ∧
    (PasswordRes.CheckApply ⟨0, true, true, some []⟩ (some ['\n']) false true
      (fun _ => 0) .success).result =
      .error "could not generate password: password is empty" := by
  exact ⟨rfl, rfl⟩

/-! Branch-by-branch characterization of the check predicate. -/

lemma check_token_nonempty {obj : PasswordRes} {value : List Char}
    (hS : obj.Saved = false) (hv : value.length < 65536) (hz : value ≠ []) :
    obj.check value = .error "Expected empty token only!" := by
  have hlz : value.length ≠ 0 := fun h => hz (List.length_eq_zero.mp h)
  have hmod : value.length % 65536 = value.length := Nat.mod_eq_of_lt hv
  simp only [PasswordRes.check]
  split
  next h => rw [hS, hmod] at h; simp [hlz] at h
  next =>
    split
    next => rfl
    next h => rw [hS, hmod] at h; simp [hlz] at h

lemma check_saved_len_ne {obj : PasswordRes} {value : List Char}
    (hS : obj.Saved = true) (hv : value.length < 65536)
    (hlen : value.length ≠ obj.Length) :
    obj.check value = .error ("String length is not " ++ toString obj.Length) := by
  simp only [PasswordRes.check]
  split
  next h => rw [hS] at h; simp at h
  next =>
    split
    next h => rw [hS] at h; simp at h
    next =>
      split
      next => rfl
      next h =>
        exfalso
        rw [Nat.mod_eq_of_lt hv] at h
        simp at h
        exact hlen h

lemma check_saved_found {obj : PasswordRes} {value : List Char} {c : Char}
    (hS : obj.Saved = true) (hv : value.length < 65536)
    (hlen : value.length = obj.Length)
    (hf : value.find? (fun c => !alphabet.contains c) = some c) :
    obj.check value = .error ("Invalid character `" ++ String.mk [c] ++ "`") := by
  simp only [PasswordRes.check]
  split
  next h => rw [hS] at h; simp at h
  next =>
    split
    next h => rw [hS] at h; simp at h
    next =>
      split
      next h => rw [Nat.mod_eq_of_lt hv] at h; simp [hlen] at h
      next =>
        rw [Nat.mod_eq_of_lt hv, List.take_length, hf]

lemma check_saved_none {obj : PasswordRes} {value : List Char}
    (hS : obj.Saved = true) (hv : value.length < 65536)
    (hlen : value.length = obj.Length)
    (hf : value.find? (fun c => !alphabet.contains c) = none) :
    obj.check value = .ok () := by
  simp only [PasswordRes.check]
  split
  next => rfl
  next =>
    split
    next h => rw [hS] at h; simp at h
    next =>
      split
      next h => rw [Nat.mod_eq_of_lt hv] at h; simp [hlen] at h
      next =>
        rw [Nat.mod_eq_of_lt hv, List.take_length, hf]

lemma mem_alphabet_of_find?_none {value : List Char}
    (hf : value.find? (fun c => !alphabet.contains c) = none) :
    ∀ c ∈ value, c ∈ alphabet := by
  intro c hc
  have h := List.find?_eq_none.mp hf c hc
  cases hcon : alphabet.contains c with
  | false => exact absurd (by rw [hcon]; rfl) h
  | true => exact List.elem_iff.mp hcon

lemma find?_none_of_mem_alphabet {value : List Char}
    (hmem : ∀ c ∈ value, c ∈ alphabet) :
    value.find? (fun c => !alphabet.contains c) = none := by
  apply List.find?_eq_none.mpr
  intro c hc hcc
  have hcc2 : (!alphabet.contains c) = true := hcc
  rw [contains_of_mem (hmem c hc)] at hcc2
  exact Bool.noConfusion hcc2

/-- C2 (amended): restricted to stored values shorter than 2^16 bytes (the
`uint16(len(value))` conversion truncates longer ones), `check` accepts iff
token-only mode with an empty value, or saved mode with exactly `Length`
characters all from the accepted set; and each rejection carries the specific
reason: the token-only violation, the length mismatch, or the first offending
character found. -/
theorem c2_check_characterization (obj : PasswordRes) (value : List Char)
    (hv : value.length < 65536) :
    (obj.check value = .ok () ↔
      (obj.Saved = false ∧ value = []) ∨
      (obj.Saved = true ∧ value.length = obj.Length ∧ ∀ c ∈ value, c ∈ alphabet)) ∧
    (obj.Saved = false → value ≠ [] →
      obj.check value = .error "Expected empty token only!") ∧
    (obj.Saved = true → value.length ≠ obj.Length →
      obj.check value = .error ("String length is not " ++ toString obj.Length)) ∧
    (∀ c, obj.Saved = true → value.length = obj.Length →
      value.find? (fun c => !alphabet.contains c) = some c →
      obj.check value = .error ("Invalid character `" ++ String.mk [c] ++ "`")) := by
  cases hS : obj.Saved with
  | false =>
    refine ⟨?_, fun _ hz => check_token_nonempty hS hv hz, ?_, ?_⟩
    · constructor
      · intro hok
        by_cases hz : value = []
        · exact Or.inl ⟨rfl, hz⟩
        · rw [check_token_nonempty hS hv hz] at hok
          exact Except.noConfusion hok
      · rintro (⟨_, hz⟩ | ⟨h1, _⟩)
        · subst hz
          exact check_nil_token hS
        · exact Bool.noConfusion h1
    · intro h1
      exact Bool.noConfusion h1
    · intro _ h1
      exact Bool.noConfusion h1
  | true =>
    refine ⟨?_, ?_, fun _ hlen => check_saved_len_ne hS hv hlen,
      fun c _ hlen hf => check_saved_found hS hv hlen hf⟩
    · constructor
      · intro hok
        by_cases hlen : value.length = obj.Length
        · cases hf : value.find? (fun c => !alphabet.contains c) with
          | some c =>
            rw [check_saved_found hS hv hlen hf] at hok
            exact Except.noConfusion hok
          | none =>
            exact Or.inr ⟨rfl, hlen, mem_alphabet_of_find?_none hf⟩
        · rw [check_saved_len_ne hS hv hlen] at hok
          exact Except.noConfusion hok
      · rintro (⟨h1, _⟩ | ⟨_, hlen, hmem⟩)
        · exact Bool.noConfusion h1
        · exact check_saved_none hS hv hlen (find?_none_of_mem_alphabet hmem)
    · intro h1
      exact Bool.noConfusion h1

/-- Witness for C2 (amended): a saved-mode value of the right length and
alphabet is accepted. -/
theorem c2_witness : PasswordRes.check ⟨2, true, false, none⟩ ['a', 'b'] = .ok () :=
  (c2_check_characterization ⟨2, true, false, none⟩ ['a', 'b'] (by decide)).1.mpr
    (Or.inr ⟨rfl, rfl, by decide⟩)

/-- C2 counterexample: a 65536-character stored value in token-only mode is
accepted by `check` even though it is not empty, because
`uint16(len(value))` wraps to 0. -/
theorem c2_counterexample :
    PasswordRes.check ⟨5, false, false, none⟩ (List.replicate 65536 'a') = .ok () ∧
    List.replicate 65536 'a' ≠ ([] : List Char) := by
  have hlen : (List.replicate 65536 'a').length % 65536 = 0 := by
    rw [List.length_replicate]
  constructor
  · simp only [PasswordRes.check, hlen]
    decide
  · intro h
    have h2 := congrArg List.length h
    rw [List.length_replicate] at h2
    simp at h2

/-! Integrity recovery. -/

lemma checkApply_check_fatal {obj : PasswordRes} {data : List Char} {e : String}
    (hc : obj.check (trimSpace data) = .error e) (hr : obj.CheckRecovery = false)
    (refresh apply : Bool) (oracle : Nat → Nat) (w : WriteOutcome) :
    obj.CheckApply (some data) refresh apply oracle w =
      ⟨.error ("check failed: " ++ e), obj, some data, false, []⟩ := by
  unfold PasswordRes.CheckApply PasswordRes.read
  simp only [hc, hr]
  rfl

lemma checkApply_recover {obj : PasswordRes} {data : List Char} {e : String}
    (oracle : Nat → Nat)
    (hc : obj.check (trimSpace data) = .error e) (hr : obj.CheckRecovery = true)
    (h0 : 0 < obj.Length) (hL : obj.Length < 65536) :
    obj.CheckApply (some data) false true oracle .success =
      ⟨.ok false, {obj with Password := some (genList obj.Length oracle)},
        some ((if obj.Saved then genList obj.Length oracle else []) ++ ['\n']), true,
        ["Integrity check failed", "Generating new password...",
          "Writing password token..."]⟩ := by
  unfold PasswordRes.CheckApply PasswordRes.read
  simp only [hc]
  rw [show (!obj.CheckRecovery) = false by rw [hr]; rfl]
  simp [decidePhase, applyPhase, generate_ok obj oracle h0 hL, writePhase,
    PasswordRes.write]

/-- C5 (amended): for a stored value that violates the check predicate —
if recovery is disabled, `CheckApply` fails with the wrapped integrity error
and mutates nothing; if recovery is enabled and — the amendment — the
configured `Length` is positive, `CheckApply(apply=true)` logs the recovery,
regenerates, persists the new state and returns `checkOK=false`, and a second
call on the resulting state returns `checkOK=true`. -/
theorem c5_integrity_recovery (obj : PasswordRes) (data : List Char) (e : String)
    (o1 o2 : Nat → Nat) (w2 : WriteOutcome)
    (hc : obj.check (trimSpace data) = .error e) :
    (obj.CheckRecovery = false → ∀ (refresh apply : Bool) (oracle : Nat → Nat)
      (w : WriteOutcome),
      obj.CheckApply (some data) refresh apply oracle w =
        ⟨.error ("check failed: " ++ e), obj, some data, false, []⟩) ∧
    (obj.CheckRecovery = true → 0 < obj.Length → obj.Length < 65536 →
      obj.CheckApply (some data) false true o1 .success =
        ⟨.ok false, {obj with Password := some (genList obj.Length o1)},
          some ((if obj.Saved then genList obj.Length o1 else []) ++ ['\n']), true,
          ["Integrity check failed", "Generating new password...",
            "Writing password token..."]⟩ ∧
      PasswordRes.CheckApply {obj with Password := some (genList obj.Length o1)}
        (some ((if obj.Saved then genList obj.Length o1 else []) ++ ['\n']))
        false true o2 w2 =
        ⟨.ok true, {obj with Password := some (genList obj.Length o1)},
          some ((if obj.Saved then genList obj.Length o1 else []) ++ ['\n']),
          false, []⟩) := by
  constructor
  · intro hr refresh apply oracle w
    exact checkApply_check_fatal hc hr refresh apply oracle w
  · intro hr h0 hL
    refine ⟨checkApply_recover o1 hc hr h0 hL, ?_⟩
    have hmemout : ∀ c ∈ (if obj.Saved then genList obj.Length o1 else []),
        c ∈ alphabet := by
      cases hS : obj.Saved with
      | false => simp
      | true =>
        simp only [if_pos rfl]
        exact genList_mem
    have htrim :
        trimSpace ((if obj.Saved then genList obj.Length o1 else []) ++ ['\n']) =
          (if obj.Saved then genList obj.Length o1 else []) :=
      trimSpace_append_newline (fun c hc2 => alphabet_not_space c (hmemout c hc2))
    apply checkApply_noop o2 w2
    · rw [htrim]
      rcases Bool.eq_false_or_eq_true obj.Saved with hS | hS
      · rw [hS, if_pos rfl]
        exact check_all_alphabet rfl (genList_length _ _) hL genList_mem
      · rw [hS, if_neg (show ¬(false = true) from by decide)]
        exact check_nil_token rfl
    · intro hS
      rw [htrim]
      right
      rw [if_pos hS]
    · intro hS
      rw [htrim, if_pos hS]
      intro hnil
      have := genList_length obj.Length o1
      rw [hnil] at this
      simp at this
      omega

/-- Witness for C5 (amended): token-only resource of length 1 whose stored
value "xx" violates check; recovery regenerates and the second call converges. -/
theorem c5_witness :
    PasswordRes.CheckApply ⟨1, false, true, none⟩ (some ['x', 'x', '\n'])
      false true (fun _ => 0) .success =
      ⟨.ok false, ⟨1, false, true, some ['a']⟩, some ['\n'], true,
        ["Integrity check failed", "Generating new password...",
          "Writing password token..."]⟩ ∧
    PasswordRes.CheckApply ⟨1, false, true, some ['a']⟩ (some ['\n'])
      false true (fun _ => 0) .success =
      ⟨.ok true, ⟨1, false, true, some ['a']⟩, some ['\n'], false, []⟩ :=
  (c5_integrity_recovery ⟨1, false, true, none⟩ ['x', 'x', '\n']
    "Expected empty token only!" (fun _ => 0) (fun _ => 0) .success rfl).2
    rfl (by decide) (by decide)

/-- C5 counterexample: with Length = 0 and recovery enabled, a check-violating
stored value does not lead to `(checkOK=false, nil)` as the claim states:
regeneration fails (empty password) and `CheckApply(apply=true)` returns an
error instead. -/
theorem c5_counterexample :
    PasswordRes.check ⟨0, false, true, none⟩ (trimSpace ['x', '\n']) =
      .error "Expected empty token only!" ∧
    (PasswordRes.CheckApply ⟨0, false, true, none⟩ (some ['x', '\n'])
      false true (fun _ => 0) .success).result =
      .error "could not generate password: password is empty" :=
  ⟨rfl, rfl⟩

/-- C6 (amended): for a resource with pending work — token missing, or the
check predicate failing with recovery enabled, or a refresh requested, or a
generate/write otherwise needed — `CheckApply(apply=false)` returns
`(checkOK=false, nil)` and performs zero storage mutation; the amendment
excludes the case of a stored value failing the check with recovery disabled
(the hypothesis `hsafe`), where a fatal error is returned instead (still with
zero storage mutation, see the C6 counterexample). -/
theorem c6_dry_run (obj : PasswordRes) (fs : Option (List Char)) (refresh : Bool)
    (oracle : Nat → Nat) (w : WriteOutcome)
    (hsafe : ∀ d, fs = some d → obj.check (trimSpace d) ≠ .ok () →
      obj.CheckRecovery = true)
    (hpend : fs = none ∨ refresh = true ∨ ∃ d, fs = some d ∧
      (obj.check (trimSpace d) ≠ .ok () ∨
       (obj.Saved = true ∧ trimSpace d = []) ∨
       (obj.Saved = true ∧ ∃ p, obj.Password = some p ∧ p ≠ trimSpace d))) :
    (obj.CheckApply fs refresh false oracle w).result = .ok false ∧
    (obj.CheckApply fs refresh false oracle w).fs = fs ∧
    (obj.CheckApply fs refresh false oracle w).wrote = false ∧
    (obj.CheckApply fs refresh false oracle w).res = obj := by
  cases fs with
  | none =>
    unfold PasswordRes.CheckApply PasswordRes.read
    simp [decidePhase]
  | some d =>
    cases hc : obj.check (trimSpace d) with
    | error e =>
      have hr : obj.CheckRecovery = true := hsafe d rfl (by simp [hc])
      unfold PasswordRes.CheckApply PasswordRes.read
      simp only [hc]
      rw [show (!obj.CheckRecovery) = false by rw [hr]; rfl]
      simp [decidePhase]
    | ok u =>
      cases u
      rcases hpend with h | h | ⟨d2, hd2, hcase⟩
      · exact absurd h (by simp)
      · subst h
        unfold PasswordRes.CheckApply PasswordRes.read
        simp only [hc]
        simp [decidePhase]
      · injection hd2 with hdd
        subst hdd
        rcases hcase with hbad | ⟨hS, hemp⟩ | ⟨hS, p, hp, hnep⟩
        · exact absurd hc hbad
        · unfold PasswordRes.CheckApply PasswordRes.read
          simp only [hc]
          simp [decidePhase, hS, hemp]
        · unfold PasswordRes.CheckApply PasswordRes.read
          simp only [hc]
          simp [decidePhase, hS, hp, bne_iff_ne.mpr hnep]

/-- Witness for C6 (amended): missing token, dry run: checkOK=false and the
(absent) file is untouched. -/
theorem c6_witness :
    (PasswordRes.CheckApply ⟨8, false, false, none⟩ none false false
      (fun _ => 0) .success).result = .ok false ∧
    (PasswordRes.CheckApply ⟨8, false, false, none⟩ none false false
      (fun _ => 0) .success).fs = none ∧
    (PasswordRes.CheckApply ⟨8, false, false, none⟩ none false false
      (fun _ => 0) .success).wrote = false ∧
    (PasswordRes.CheckApply ⟨8, false, false, none⟩ none false false
      (fun _ => 0) .success).res = ⟨8, false, false, none⟩ :=
  c6_dry_run ⟨8, false, false, none⟩ none false (fun _ => 0) .success
    (fun _ h => Option.noConfusion h) (Or.inl rfl)

/-- C6 counterexample: a resource with a pending refresh — pending work per the
claim — whose stored value fails check with recovery disabled: the dry-run
call returns the fatal check error, not `(checkOK=false, nil)`. -/
theorem c6_counterexample :
    (PasswordRes.CheckApply ⟨2, true, false, none⟩ (some ['x', '\n']) true false
      (fun _ => 0) .success).result = .error "check failed: String length is not 2" ∧
    (PasswordRes.CheckApply ⟨2, true, false, none⟩ (some ['x', '\n']) true false
      (fun _ => 0) .success).result ≠ .ok false :=
  ⟨rfl, by decide⟩

/-! Frame facts for C8: under a non-failing write, all CheckApply errors occur
before any write. -/

lemma writePhase_success_result (obj : PasswordRes) (fs : Option (List Char))
    (pw : List Char) (wr : Bool) (logs : List String) :
    (writePhase obj fs pw wr logs .success).result = .ok false := by
  simp only [writePhase, PasswordRes.write]
  split <;> rfl

lemma decidePhase_success_shape (obj : PasswordRes) (fs : Option (List Char))
    (pw : List Char) (exs refresh apply : Bool) (oracle : Nat → Nat)
    (gen0 write0 : Bool) (logs : List String) :
    (∃ b, (decidePhase obj fs pw exs refresh apply oracle .success gen0 write0 logs).result
      = .ok b) ∨
    ((decidePhase obj fs pw exs refresh apply oracle .success gen0 write0 logs).fs = fs ∧
     (decidePhase obj fs pw exs refresh apply oracle .success gen0 write0 logs).wrote
      = false) := by
  simp only [decidePhase]
  split
  · exact Or.inl ⟨true, rfl⟩
  · split
    · exact Or.inl ⟨false, rfl⟩
    · simp only [applyPhase]
      split
      · cases hg : obj.generate oracle with
        | error e => exact Or.inr ⟨rfl, rfl⟩
        | ok p => exact Or.inl ⟨false, writePhase_success_result _ _ _ _ _⟩
      · exact Or.inl ⟨false, writePhase_success_result _ _ _ _ _⟩

/-- C8 (amended): whenever `CheckApply` fails while the write step itself does
not fail (read, integrity-check, or generation failures), no write has been
performed and the persisted state is untouched; the unrestricted claim is
false because `os.Create` truncates the file before `file.Write` runs, so a
failing write can destroy the old state (see the C8 counterexample). -/
theorem c8_prewrite_error_frame (obj : PasswordRes) (fs : Option (List Char))
    (refresh apply : Bool) (oracle : Nat → Nat) (e : String)
    (he : (obj.CheckApply fs refresh apply oracle .success).result = .error e) :
    (obj.CheckApply fs refresh apply oracle .success).fs = fs ∧
    (obj.CheckApply fs refresh apply oracle .success).wrote = false := by
  cases fs with
  | none =>
    rcases decidePhase_success_shape obj none [] false refresh apply oracle false true []
      with ⟨b, hb⟩ | hfr
    · rw [show obj.CheckApply none refresh apply oracle .success =
        decidePhase obj none [] false refresh apply oracle .success false true [] from rfl,
        hb] at he
      exact Except.noConfusion he
    · exact hfr
  | some d =>
    cases hc : obj.check (trimSpace d) with
    | error e2 =>
      cases hr : obj.CheckRecovery with
      | false =>
        rw [checkApply_check_fatal hc hr refresh apply oracle .success]
        exact ⟨rfl, rfl⟩
      | true =>
        have hun : obj.CheckApply (some d) refresh apply oracle .success =
            decidePhase obj (some d) (trimSpace d) true refresh apply oracle .success
              true true ["Integrity check failed"] := by
          unfold PasswordRes.CheckApply PasswordRes.read
          simp only [hc]
          rw [show (!obj.CheckRecovery) = false by rw [hr]; rfl]
          rfl
        rcases decidePhase_success_shape obj (some d) (trimSpace d) true refresh apply
          oracle true true ["Integrity check failed"] with ⟨b, hb⟩ | hfr
        · rw [hun, hb] at he
          exact Except.noConfusion he
        · rw [hun]
          exact hfr
    | ok u =>
      cases u
      have hun : obj.CheckApply (some d) refresh apply oracle .success =
          decidePhase obj (some d) (trimSpace d) true refresh apply oracle .success
            false false [] := by
        unfold PasswordRes.CheckApply PasswordRes.read
        simp only [hc]
      rcases decidePhase_success_shape obj (some d) (trimSpace d) true refresh apply
        oracle false false [] with ⟨b, hb⟩ | hfr
      · rw [hun, hb] at he
        exact Except.noConfusion he
      · rw [hun]
        exact hfr

/-- Witness for C8 (amended): generation failure at Length = 0 leaves the
(absent) token file untouched with no write performed. -/
theorem c8_witness :
    (PasswordRes.CheckApply ⟨0, true, true, none⟩ none false true
      (fun _ => 0) .success).fs = none ∧
    (PasswordRes.CheckApply ⟨0, true, true, none⟩ none false true
      (fun _ => 0) .success).wrote = false :=
  c8_prewrite_error_frame ⟨0, true, true, none⟩ none false true (fun _ => 0)
    "could not generate password: password is empty" rfl

/-- C8 counterexample: a saved-mode resource whose cache disagrees with the
valid on-disk value "a" triggers a write; if `file.Write` fails after 0 bytes,
`CheckApply` returns an `ApplyError` but the file has been truncated: the old
state "a" is no longer readable and the new state "a\n" was not fully
written — contradicting the claim that one of the two always holds. -/
theorem c8_counterexample :
    (PasswordRes.CheckApply ⟨1, true, false, some ['b']⟩ (some ['a', '\n']) false true
      (fun _ => 0) (.failAt 0)).result = .error "can't write to file: can't write file" ∧
    (PasswordRes.CheckApply ⟨1, true, false, some ['b']⟩ (some ['a', '\n']) false true
      (fun _ => 0) (.failAt 0)).fs = some [] ∧
    PasswordRes.read ⟨1, true, false, some ['b']⟩
      (PasswordRes.CheckApply ⟨1, true, false, some ['b']⟩ (some ['a', '\n']) false true
        (fun _ => 0) (.failAt 0)).fs ≠ .ok ['a'] ∧
    (PasswordRes.CheckApply ⟨1, true, false, some ['b']⟩ (some ['a', '\n']) false true
      (fun _ => 0) (.failAt 0)).fs ≠ some ['a', '\n'] :=
  ⟨rfl, rfl, by decide, by decide⟩

end Mgmt
